import Mathlib

/-!
Verification development for the LEEA hazard-monitoring pipeline.

Shallow embedding of the Python sources in `app/`:
real numbers carried by the Python floats are modelled as `ℚ`
(the claims under study concern order, arithmetic identities and
control flow, none of which depend on binary rounding), Python
exceptions are modelled with `Except`, and JSON-ish dictionaries are
modelled with structures and `Option` fields (`none` = key absent or
`None`).  Python truthiness of strings/lists is modelled explicitly
where the source relies on it.
-/

/-- Kinds of Python errors relevant to the exposure engine.  The first
three are the builtin exception classes the code in
`app/tools/portfolio_tool.py` actually produces; `dataError` and
`configurationError` model the error taxonomy named by the spec (§7),
which has no counterpart class in the code, so that claims about that
taxonomy can be stated. -/
inductive PyErr
| valueError
| typeError
| keyError
| parserError
| dataError
| configurationError
deriving DecidableEq

/-- Magnitude→buffer-radius step function of
`app/tools/earthquake_tool.py::_buffer_km_for_mag` (lines 32-42):
`if m >= 7.0: 200.0; if m >= 6.0: 125.0; if m >= 5.0: 75.0;
if m >= 4.0: 50.0; return 25.0`. -/
def bufferKmForMag (m : ℚ) : ℚ :=
  if 7 ≤ m then 200
  else if 6 ≤ m then 125
  else if 5 ≤ m then 75
  else if 4 ≤ m then 50
  else 25

/-- Value found under the `"mag"` key of a seismic feature's
properties, as seen by `fetch_recent_earthquakes` (line 79):
`float((f.get("properties") or {}).get("mag") or 0.0)`.
`missing` = properties absent or no `"mag"` key (`None`);
`falsy` = a Python-falsy value (`0`, `0.0`, `""`, `False`), which the
`or 0.0` replaces by `0.0`; `num q` = a truthy value that `float()`
coerces to the number `q` (a float or a numeric string);
`badValue` = a truthy value on which `float()` raises. -/
inductive MagCell
| missing
| falsy
| num (q : ℚ)
| badValue
deriving DecidableEq

/-- The magnitude the code ends up using (lines 77-81): `mag = 0.0`
initially, `float(... or 0.0)` inside `try`, and the `except` branch
resets `mag = 0.0` when `float()` raises. -/
def magValue : MagCell → ℚ
| .missing => 0
| .falsy => 0
| .num q => q
| .badValue => 0

/-- A raw GeoJSON geometry object as found under a feature's
`"geometry"` key.  `point` and `polygon` carry their coordinate
arrays; `unrecognized` stands for any geometry object that
`shapely.geometry.shape` raises on (unknown `"type"`, malformed
coordinates, ...). -/
inductive RawGeom
| point (coords : List ℚ)
| polygon (rings : List (List (ℚ × ℚ)))
| unrecognized
deriving DecidableEq

/-- One piece of a (union) geometry: either a buffered disc around a
point (seismic path) or a parsed raw geometry (alerts path).  A union
geometry is a list of pieces, modelling the point-set union that
`shapely.ops.unary_union` computes. -/
inductive GeomPiece
| disc (lon lat radiusDeg : ℚ)
| pt (coords : List ℚ)
| poly (rings : List (List (ℚ × ℚ)))
deriving DecidableEq

/-- Emptiness of one geometry piece as a point set: a disc of
non-positive radius is empty (shapely's `buffer` of a non-positive
radius around a point yields an empty polygon), a `Point` built from
fewer than two coordinates is empty, and a polygon with no rings is
empty (`shape({'type': 'Polygon', 'coordinates': []})` parses to
`POLYGON EMPTY` without raising). -/
def GeomPiece.isEmptyGeom : GeomPiece → Bool
| .disc _ _ r => decide (r ≤ 0)
| .pt coords => decide (coords.length < 2)
| .poly rings => rings.isEmpty

/-- A whole union geometry is empty iff all of its pieces are. -/
def unionIsEmpty (g : List GeomPiece) : Bool :=
  g.all GeomPiece.isEmptyGeom

/-- Model of `shapely.geometry.shape` on a raw geometry: recognized
types parse (possibly to an empty geometry), unrecognized input
raises. -/
def shapeParse : RawGeom → Except Unit GeomPiece
| .point coords => .ok (.pt coords)
| .polygon rings => .ok (.poly rings)
| .unrecognized => .error ()

/-- One feature of the USGS feed as consumed by the buffering loop of
`fetch_recent_earthquakes` (lines 68-84).  `geometry = none` models a
missing or Python-falsy `"geometry"` value. -/
structure EqFeature where
  geometry : Option RawGeom
  mag : MagCell
deriving DecidableEq

/-- Per-feature step of the buffering loop (lines 69-84): non-`Point`
geometries and coordinate arrays shorter than 2 are skipped; otherwise
the epicenter is buffered by `_buffer_km_for_mag(mag) / 111.0`
degrees. -/
def bufferOfFeature (f : EqFeature) : Option GeomPiece :=
  match f.geometry with
  | some (.point coords) =>
      if coords.length < 2 then none
      else some (.disc (coords.getD 0 0) (coords.getD 1 0)
                   (bufferKmForMag (magValue f.mag) / 111))
  | _ => none

/-- The list `buffers` accumulated by the loop in
`fetch_recent_earthquakes`. -/
def eqBuffers (feats : List EqFeature) : List GeomPiece :=
  feats.filterMap bufferOfFeature

/-- The synthesized hazard `Feature` of the seismic path: the union
geometry (`mapping(unary_union(buffers))`) and the merged count
recorded in its `properties` (line 97). -/
structure EqUnionFeature where
  geometry : List GeomPiece
  mergedCount : ℕ
deriving DecidableEq

/-- Lines 86-99 of `fetch_recent_earthquakes`: `union_feature = None`
unless `buffers` is non-empty, in which case the buffers are unioned
into a single feature. -/
def eqFeatureUnion (feats : List EqFeature) : Option EqUnionFeature :=
  let buffers := eqBuffers feats
  if buffers.isEmpty then none
  else some ⟨buffers, buffers.length⟩

/-- Properties of one NWS alert feature, as far as the union metadata
reads them: the `"event"` and `"severity"` keys.  `none` = key absent
or `None`. -/
structure AlertProps where
  event : Option String
  severity : Option String
deriving DecidableEq

/-- One NWS alert feature as consumed by `_union_features` in
`app/tools/alerts_tool.py` (lines 26-52).  `geometry = none` models a
missing or Python-falsy `"geometry"` value (the `if not geom` skip). -/
structure AlertFeature where
  geometry : Option RawGeom
  props : AlertProps
deriving DecidableEq

/-- Python truthiness for an optional string: `None` and `""` are
falsy. -/
def strTruthy : Option String → Bool
| none => false
| some s => !s.isEmpty

/-- The geometries (with their properties) that survive the parse loop
of `_union_features` (lines 29-37): falsy geometries are skipped, and
a `shape()` failure skips the feature via `except: continue`. -/
def alertParsedGeoms (features : List AlertFeature) :
    List (GeomPiece × AlertProps) :=
  features.filterMap fun f =>
    match f.geometry with
    | none => none
    | some g =>
        match shapeParse g with
        | .ok piece => some (piece, f.props)
        | .error _ => none

/-- The synthesized alerts footprint `Feature`: union geometry plus
the summarised properties built at lines 42-47. -/
structure AlertFootprint where
  geometry : List GeomPiece
  mergedCount : ℕ
  events : List String
  severities : List String
deriving DecidableEq

/-- Distinct truthy values of one properties key, modelling the Python
set comprehension `{p.get(k) for p in props_list if p.get(k)}` (lines
45-46).  Python set iteration order is unspecified; the model fixes
first-occurrence order, which the claims under study do not depend
on. -/
def distinctTruthy (l : List (Option String)) : List String :=
  ((l.filter strTruthy).filterMap id).dedup

/-- `_union_features` (lines 26-52): skip falsy/unparseable
geometries, return `None` when nothing parsed, otherwise union the
parsed geometries into one `Feature` with summarised properties. -/
def unionFeatures (features : List AlertFeature) : Option AlertFootprint :=
  let parsed := alertParsedGeoms features
  if parsed.isEmpty then none
  else
    some { geometry := parsed.map Prod.fst
           mergedCount := parsed.length
           events := distinctTruthy (parsed.map fun p => p.2.event)
           severities := distinctTruthy (parsed.map fun p => p.2.severity) }

/-- One row of the portfolio CSV after `pd.to_numeric(..,
errors="coerce")` has been applied to its three numeric columns
(`portfolio_tool.py` lines 55-57): each `Option ℚ` is the coercion
result, with `none` standing for `NaN` (the cell was missing or not
numeric).  `propertyId` is the `PropertyID` cell, kept verbatim. -/
structure CsvRow where
  propertyId : String
  lat : Option ℚ
  lon : Option ℚ
  tiv : Option ℚ
deriving DecidableEq

/-- The portfolio source handed to `compute_portfolio_exposure`:
either `pd.read_csv` raises (the file is absent or unparseable), or it
yields a frame with a set of column names and a list of rows. -/
inductive PortfolioSource
| parseFailure
| frame (cols : List String) (rows : List CsvRow)

/-- The hazard footprint argument, reduced to what the exposure loop
uses of it: the prepared-geometry boundary-inclusive containment test
`prepared_poly.intersects(Point(lon, lat))` (lines 67-74). -/
structure Footprint where
  contains : ℚ → ℚ → Bool

/-- The required column set of `compute_portfolio_exposure` (line
49). -/
def requiredCols : List String :=
  ["PropertyID", "Latitude", "Longitude", "TotalInsuredValue"]

/-- A row that survived `dropna(subset=["Latitude", "Longitude"])`
(line 60), with `TotalInsuredValue` already `fillna(0.0)`-ed (line
57). -/
structure KeptRow where
  propertyId : String
  lat : ℚ
  lon : ℚ
  tiv : ℚ
deriving DecidableEq

/-- Coercion/drop step for one row: rows whose latitude or longitude
failed numeric coercion are dropped; a non-numeric insured value
becomes `0.0`. -/
def coerceRow (r : CsvRow) : Option KeptRow :=
  match r.lat, r.lon with
  | some la, some lo => some ⟨r.propertyId, la, lo, r.tiv.getD 0⟩
  | _, _ => none

/-- The dataframe after coercion and `dropna` (lines 54-60). -/
def keptRows (rows : List CsvRow) : List KeptRow :=
  rows.filterMap coerceRow

/-- The exposed sub-frame `df[df["Exposed"]]` (lines 70-78), with each
row paired with its positional index in the kept frame (pandas keeps
row order under boolean filtering, and the index was reset at line
60). -/
def exposedIndexed (rows : List CsvRow) (fp : Footprint) :
    List (ℕ × KeptRow) :=
  (keptRows rows).enum.filter fun p => fp.contains p.2.lon p.2.lat

/-- Comparison of indexed kept rows by insured value. -/
def tivLe (a b : ℕ × KeptRow) : Prop := a.2.tiv ≤ b.2.tiv

instance : DecidableRel tivLe := fun a b =>
  inferInstanceAs (Decidable (a.2.tiv ≤ b.2.tiv))

instance : IsTotal (ℕ × KeptRow) tivLe := ⟨fun x y => le_total x.2.tiv y.2.tiv⟩

instance : IsTrans (ℕ × KeptRow) tivLe :=
  ⟨fun _ _ _ hab hbc => le_trans hab hbc⟩

/-- Result order of
`exposed_df.sort_values("TotalInsuredValue", ascending=False)` (line
82).  pandas delegates a single-column sort to
`pandas.core.sorting.nargsort`, which for `ascending=False` first
reverses the value array and the positional index array, computes an
ascending argsort of the reversed values, and finally reverses the
resulting indexer.  With a stable argsort kernel (numpy's introsort
degenerates to a plain stable insertion sort below its small-array
cutoff; the model fixes the stable behavior) the two reversals cancel
on ties, so the result is descending by value with equal-valued rows
kept in their original positional order.  The model mirrors the
mechanism literally: reverse the indexed rows, run a stable ascending
insertion sort on `TotalInsuredValue`, and reverse the result. -/
def pandasSortDescTIV (l : List (ℕ × KeptRow)) : List (ℕ × KeptRow) :=
  (l.reverse.insertionSort tivLe).reverse

/-- One record of the `top_exposed` list (lines 83-92). -/
structure TopRec where
  propertyId : String
  lat : ℚ
  lon : ℚ
  tiv : ℚ
deriving DecidableEq

/-- Projection of an indexed exposed row to its `top_exposed`
record. -/
def toTopRec (p : ℕ × KeptRow) : TopRec :=
  ⟨p.2.propertyId, p.2.lat, p.2.lon, p.2.tiv⟩

/-- `sort_values(...).head(10)` projected to records (lines 82-92). -/
def topRecords (rows : List CsvRow) (fp : Footprint) : List TopRec :=
  ((pandasSortDescTIV (exposedIndexed rows fp)).take 10).map toTopRec

/-- Smallest element of a list of rationals, `none` on the empty list
(`min(...)` of Python). -/
def listMinQ : List ℚ → Option ℚ
| [] => none
| x :: xs => some (xs.foldl min x)

/-- Largest element of a list of rationals, `none` on the empty list
(`max(...)` of Python). -/
def listMaxQ : List ℚ → Option ℚ
| [] => none
| x :: xs => some (xs.foldl max x)

/-- `_compute_bounds` (lines 33-38): `(min lons, min lats, max lons,
max lats)`, or `None` when either input list is empty. -/
def computeBounds (lats lons : List ℚ) : Option (ℚ × ℚ × ℚ × ℚ) :=
  match listMinQ lons, listMinQ lats, listMaxQ lons, listMaxQ lats with
  | some a, some b, some c, some d => some (a, b, c, d)
  | _, _, _, _ => none

/-- The `ExposureSummary` record (lines 14-30 and 96-105).  The field
`exposureRate` carries the source's `exposure_ratio`. -/
structure ExposureOut where
  assetCountTotal : ℕ
  assetCountExposed : ℕ
  tivTotal : ℚ
  tivExposed : ℚ
  exposureRate : ℚ
  bounds : Option (ℚ × ℚ × ℚ × ℚ)
  topExposed : List TopRec
deriving DecidableEq

/-- `compute_portfolio_exposure(portfolio_csv, cone_feature_json)`
(lines 41-118).  In source order: `pd.read_csv` may raise (here
`parserError` stands for any of its parse/IO exceptions); a missing
required column raises `ValueError` (lines 49-52); numeric coercion
and `dropna` (lines 54-60); then the cone feature is parsed — passing
`None` for the footprint makes `cone_feature["geometry"]` at line 67
raise `TypeError` (`NoneType` is not subscriptable); finally the
point-in-polygon scoring and aggregation (lines 70-105). -/
def computePortfolioExposure (src : PortfolioSource)
    (footprint : Option Footprint) : Except PyErr ExposureOut :=
  match src with
  | .parseFailure => .error .parserError
  | .frame cols rows =>
      if !(requiredCols.all fun c => cols.contains c) then
        .error .valueError
      else
        match footprint with
        | none => .error .typeError
        | some fp =>
            let kept := keptRows rows
            let exposed := exposedIndexed rows fp
            let tivT : ℚ := (kept.map KeptRow.tiv).sum
            let tivE : ℚ := (exposed.map fun p => p.2.tiv).sum
            .ok { assetCountTotal := kept.length
                  assetCountExposed := exposed.length
                  tivTotal := tivT
                  tivExposed := tivE
                  exposureRate := if 0 < tivT then tivE / tivT else 0
                  bounds :=
                    if exposed.isEmpty then none
                    else computeBounds (exposed.map fun p => p.2.lat)
                           (exposed.map fun p => p.2.lon)
                  topExposed := topRecords rows fp }

/-- Insert a thousands separator after every third digit of a reversed
digit list, modelling the `,` flag of Python's format mini-language. -/
def commaRev : List Char → List Char
| a :: b :: c :: d :: rest => a :: b :: c :: ',' :: commaRev (d :: rest)
| l => l

/-- Decimal digits of a natural number with thousands separators
(`format(n, ',d')`). -/
def groupedNat (n : ℕ) : String :=
  String.mk (commaRev (toString n).toList.reverse).reverse

/-- Round a rational to the nearest integer, ties to even — the
rounding Python's fixed-point float formatting applies. -/
def roundHalfEven (q : ℚ) : ℤ :=
  let f : ℤ := ⌊q⌋
  let r : ℚ := q - (f : ℚ)
  if r < 1/2 then f
  else if 1/2 < r then f + 1
  else if f % 2 = 0 then f else f + 1

/-- Fixed-point rendering of a rational with `d` decimal places and no
grouping (Python `format(x, '.df')`).  The sign is taken from the
value being formatted, so a negative value rounding to zero renders
as `-0...`, as Python does. -/
def formatFixed (q : ℚ) (d : ℕ) : String :=
  let scaled : ℤ := roundHalfEven (q * ((10 : ℚ) ^ d))
  let a : ℕ := scaled.natAbs
  let sign : String := if scaled < 0 ∨ (scaled = 0 ∧ q < 0) then "-" else ""
  if d = 0 then sign ++ toString a
  else
    let ip : ℕ := a / 10 ^ d
    let fracDigits : String := toString (a % 10 ^ d)
    let padded : String :=
      String.mk (List.replicate (d - fracDigits.length) '0') ++ fracDigits
    sign ++ toString ip ++ "." ++ padded

/-- Python `format(x, ',.0f')`: round to an integer and group the
digits. -/
def formatMoney (q : ℚ) : String :=
  let scaled : ℤ := roundHalfEven q
  let sign : String := if scaled < 0 ∨ (scaled = 0 ∧ q < 0) then "-" else ""
  sign ++ groupedNat scaled.natAbs

/-- Python `format(x, '.2%')`: scale by 100, two decimal places, and a
percent sign. -/
def formatPercent (q : ℚ) : String :=
  formatFixed (q * 100) 2 ++ "%"

/-- Python `x or default` for an optional string: `None` and `""` are
falsy. -/
def pyStrOr (o : Option String) (d : String) : String :=
  match o with
  | some s => if s.isEmpty then d else s
  | none => d

/-- The `## Exposure` body line shared by the seismic and alerts
briefings (`agent.py` lines 165-169 and 218-222). -/
def exposureLine (exp : ExposureOut) : String :=
  "Exposed assets: " ++ toString exp.assetCountExposed ++ "/" ++
    toString exp.assetCountTotal ++ " | " ++
    "Exposed TIV: $" ++ formatMoney exp.tivExposed ++ " of $" ++
    formatMoney exp.tivTotal ++ " " ++
    "(ratio " ++ formatPercent exp.exposureRate ++ ")"

/-- Display-level view of one USGS feature, as the `## Intelligence`
loop of the seismic briefing reads it (`agent.py` lines 179-187):
`place`, `mag` (kept as its display text — `f"M{mag}"` prints the
JSON scalar), and `url`.  `none` models an absent key or `None`. -/
structure EqDisplayFeature where
  place : Option String
  magText : Option String
  url : Option String
deriving DecidableEq

/-- One bullet of the seismic `## Intelligence` section (lines
180-187).  Note the `if mag is not None` test is on `None`, not
truthiness, while the final `if url` test is on truthiness of
`p.get("url") or ""`. -/
def eqIntelBullet (f : EqDisplayFeature) : String :=
  let place := pyStrOr f.place "Unknown"
  let magS := match f.magText with
    | some m => "M" ++ m
    | none => "M?"
  let url := pyStrOr f.url ""
  if url ≠ "" then "- [" ++ magS ++ " — " ++ place ++ "](" ++ url ++ ")"
  else "- " ++ magS ++ " — " ++ place

/-- The seismic fetch result as the orchestrator consumes it
(`agent.py` lines 151-162 and 178): source title, event count, the
optional union feature, and the raw features for display. -/
structure EqResult where
  sourceTitle : String
  count : ℕ
  featureUnion : Option EqUnionFeature
  features : List EqDisplayFeature
deriving DecidableEq

/-- One bullet of the seismic `Top exposed (by TIV):` list (line
175). -/
def topExposedBullet (r : TopRec) : String :=
  "- " ++ r.propertyId ++ " ($" ++ formatMoney r.tiv ++ ") @ (" ++
    formatFixed r.lat 3 ++ ", " ++ formatFixed r.lon 3 ++ ")"

/-- The seismic fallback briefing, `agent.py` lines 156-192, rendered
with the generation timestamp `ts` pinned. -/
def renderEqBriefing (eq : EqResult) (exp : ExposureOut) (ts : String) :
    String :=
  let head : List String :=
    ["# LEEA Briefing (Earthquakes)", "",
     "Generated at: " ++ ts, "",
     "## Event Status",
     eq.sourceTitle ++ " | Events: " ++ toString eq.count, "",
     "## Exposure",
     exposureLine exp]
  let topPart : List String :=
    if exp.topExposed.isEmpty then []
    else ["", "Top exposed (by TIV):"] ++
      (exp.topExposed.take 5).map topExposedBullet
  let intel : List String :=
    ["", "## Intelligence"] ++ (eq.features.take 5).map eqIntelBullet
  let tail : List String :=
    ["", "## Next Actions",
     "- Monitor USGS for aftershocks and updates; re-run exposure if hazard changes.",
     "- If exposure is material, prepare notifications to stakeholders."]
  String.intercalate "\n" (head ++ topPart ++ intel ++ tail)

/-- The alerts fetch result as the orchestrator consumes it (`agent.py`
lines 202-213). -/
structure AlertsResult where
  count : ℕ
  featureUnion : Option AlertFootprint
deriving DecidableEq

/-- The alerts fallback briefing, `agent.py` lines 207-226.  `area` is
the optional two-letter area filter; the events list comes from the
union feature's summarised properties. -/
def renderAlertsBriefing (al : AlertsResult) (fpEvents : List String)
    (exp : ExposureOut) (area : Option String) (ts : String) : String :=
  let head : List String :=
    ["# LEEA Briefing (NWS Alerts)", "",
     "Generated at: " ++ ts, "",
     "## Event Status",
     "Active NWS alerts: " ++ toString al.count ++ " | Events: " ++
       String.intercalate ", " fpEvents]
  let areaPart : List String :=
    match area with
    | some a => ["Area filter: " ++ a]
    | none => []
  let tail : List String :=
    ["", "## Exposure", exposureLine exp, "",
     "## Next Actions",
     "- Monitor NWS alerts for changes; re-run exposure if polygons update."]
  String.intercalate "\n" (head ++ areaPart ++ tail)

/-- One article of NewsAPI output as the news-only briefing reads it
(`agent.py` lines 246-252), `parsed` fields flattened in. -/
structure NewsArticle where
  source : Option String
  title : Option String
  url : Option String
  publishedAt : Option String
  parsedTitle : Option String
  parsedPublishDate : Option String
deriving DecidableEq

/-- The news fetch result (or its `{"articles": []}` substitute). -/
structure NewsResult where
  articles : List NewsArticle
deriving DecidableEq

/-- One bullet of the news-only `## Intelligence` section (lines
246-252), with Python's string-truthiness `or` chains. -/
def newsBullet (a : NewsArticle) : String :=
  let title := pyStrOr a.title (pyStrOr a.parsedTitle "Untitled")
  let url := pyStrOr a.url ""
  let source := pyStrOr a.source "?"
  let pub := pyStrOr a.publishedAt (pyStrOr a.parsedPublishDate "")
  if url ≠ "" then
    "- [" ++ title ++ "](" ++ url ++ ") — " ++ source ++ " " ++ pub
  else
    "- " ++ title ++ " — " ++ source ++ " " ++ pub

/-- The news-only fallback briefing, `agent.py` lines 236-258.  The
`if news.get("articles")` test is list truthiness: an empty list takes
the `No articles` branch. -/
def renderNewsBriefing (news : NewsResult) (ts : String) : String :=
  let head : List String :=
    ["# LEEA Briefing (news-only)", "",
     "Generated at: " ++ ts, "",
     "## Event Status",
     "Autonomous agent failed; showing recent coverage relevant to earthquakes.",
     "",
     "## Intelligence (recent coverage)"]
  let body : List String :=
    if news.articles.isEmpty then ["- No articles returned from NewsAPI."]
    else (news.articles.take 10).map newsBullet
  let tail : List String :=
    ["", "## Next Actions", "- Verify API keys and try again."]
  String.intercalate "\n" (head ++ body ++ tail)

/-- The structured input of one briefing rendering: the status tag
(which of the three deterministic templates is used) together with the
template's data. -/
inductive BriefingInput
| eqB (eq : EqResult) (exp : ExposureOut)
| alertsB (al : AlertsResult) (fpEvents : List String) (exp : ExposureOut)
    (area : Option String)
| newsB (news : NewsResult)
deriving DecidableEq

/-- Dispatch of the three briefing templates on the status tag, with a
pinned generation timestamp. -/
def renderBriefing (i : BriefingInput) (ts : String) : String :=
  match i with
  | .eqB eq exp => renderEqBriefing eq exp ts
  | .alertsB al fpEvents exp area => renderAlertsBriefing al fpEvents exp area ts
  | .newsB news => renderNewsBriefing news ts

/-- The status tags `run_cycle` can terminate with (`agent.py` lines
145, 193, 227, 259). -/
inductive CycleStatus
| ok
| ok_eq
| ok_alerts
| ok_news
deriving DecidableEq

/-- The states of the fallback state machine, in their fixed order. -/
inductive AgentState
| PRIMARY
| FALLBACK_SEISMIC
| FALLBACK_ALERTS
| FALLBACK_NEWS
deriving DecidableEq

/-- The terminal record of one cycle: status tag, rendered text, and
the trace of states whose strategies were attempted, in attempt
order. -/
structure CycleOutcome where
  status : CycleStatus
  text : String
  attempted : List AgentState

/-- Derivation of the optional two-letter alerts area filter from the
configured monitor region (`agent.py` lines 199-201): requires a
truthy string whose stripped form has length exactly 2, and
upper-cases it. -/
def deriveArea (region : Option String) : Option String :=
  match region with
  | none => none
  | some s =>
      if s.isEmpty then none
      else if s.trim.length = 2 then some s.trim.toUpper else none

/-- The ambient results of the sub-computations one `run_cycle`
invocation performs, each modelled as `Except Unit _` so that a raised
exception is an explicit value: the agent-executor invocation (its
`ok` value already being `result.get("output") or ""`), the seismic
fetch, the exposure computation on the seismic union, the alerts
fetch, the exposure computation on the alerts union, the news fetch,
the configured monitor region, and the wall-clock timestamp text. -/
structure CycleEnv where
  primary : Except Unit String
  eqFetch : Except Unit EqResult
  expEq : Except Unit ExposureOut
  alertsFetch : Except Unit AlertsResult
  expAlerts : Except Unit ExposureOut
  newsFetch : Except Unit NewsResult
  region : Option String
  now : String

/-- The terminal news-only stage (`agent.py` lines 231-259): a failed
news fetch is replaced by `{"articles": []}` and the cycle still ends
with `ok_news`. -/
def newsStage (env : CycleEnv) (tr : List AgentState) : CycleOutcome :=
  let news : NewsResult :=
    match env.newsFetch with
    | .ok n => n
    | .error _ => ⟨[]⟩
  ⟨.ok_news, renderNewsBriefing news env.now,
    tr ++ [.FALLBACK_NEWS]⟩

/-- The alerts stage (`agent.py` lines 197-230): any exception in the
fetch or in the exposure computation, or an absent union geometry
(`alerts_no_geometry`), falls through to the news stage. -/
def alertsStage (env : CycleEnv) (tr : List AgentState) : CycleOutcome :=
  let tr := tr ++ [.FALLBACK_ALERTS]
  match env.alertsFetch with
  | .error _ => newsStage env tr
  | .ok al =>
      match al.featureUnion with
      | none => newsStage env tr
      | some fp =>
          match env.expAlerts with
          | .error _ => newsStage env tr
          | .ok exp =>
              ⟨.ok_alerts,
               renderAlertsBriefing al fp.events exp
                 (deriveArea env.region) env.now, tr⟩

/-- The seismic stage (`agent.py` lines 149-196): any exception in the
fetch or in the exposure computation, or an absent union feature
(`eq_no_union`), falls through to the alerts stage. -/
def seismicStage (env : CycleEnv) (tr : List AgentState) : CycleOutcome :=
  let tr := tr ++ [.FALLBACK_SEISMIC]
  match env.eqFetch with
  | .error _ => alertsStage env tr
  | .ok eq =>
      match eq.featureUnion with
      | none => alertsStage env tr
      | some _ =>
          match env.expEq with
          | .error _ => alertsStage env tr
          | .ok exp =>
              ⟨.ok_eq, renderEqBriefing eq exp env.now, tr⟩

/-- `run_cycle` (`agent.py` lines 130-271), up to the persistence of
the briefing file: attempt the LLM-orchestrated primary strategy; on
any exception degrade through the deterministic seismic → alerts →
news chain.  The function is total: every exception of the primary
state and of the first two fallback states is consumed by a `match`,
so no exception value escapes. -/
def runCycle (env : CycleEnv) : CycleOutcome :=
  match env.primary with
  | .ok out => ⟨.ok, out, [.PRIMARY]⟩
  | .error _ => seismicStage env [.PRIMARY]

/-- A footprint containing every point (used as a concrete containment
test). -/
def fpAll : Footprint := ⟨fun _ _ => true⟩

/-- A footprint containing exactly the points of longitude 0 (used as
a concrete containment test). -/
def fpLonZero : Footprint := ⟨fun lon _ => decide (lon = 0)⟩

/-- Concrete two-row frame: an exposed asset worth 100 at the origin
and an unexposed asset worth -50 (a negative insured value, which
`pd.to_numeric` accepts). -/
def rowsNegTiv : List CsvRow :=
  [⟨"A", some 0, some 0, some 100⟩, ⟨"B", some 10, some 10, some (-50)⟩]

/-- Concrete one-row frame whose latitude 200 is numeric but far
outside [-90, 90]. -/
def rowsBadLat : List CsvRow :=
  [⟨"X", some 200, some 0, some 10⟩]

/-- Concrete one-row frame with coercible coordinates and a
non-numeric insured value (so the total insured value is 0). -/
def rowsZeroTiv : List CsvRow :=
  [⟨"A", some 0, some 0, none⟩]

/-- Concrete two-row frame: one coercible row with non-numeric insured
value, one row whose latitude fails numeric coercion. -/
def rowsMixed : List CsvRow :=
  [⟨"A", some 0, some 0, none⟩, ⟨"C", none, some 3, none⟩]

/-- The summary an exposure computation returned, extracted from its
result (the all-zero summary is a dummy never reached on the success
path). -/
def exposureOutOf (cols : List String) (rows : List CsvRow)
    (fp : Footprint) : ExposureOut :=
  (computePortfolioExposure (.frame cols rows) (some fp)).toOption.getD
    ⟨0, 0, 0, 0, 0, none, []⟩

/-- The exposure summary computed on `rowsZeroTiv` with the
all-containing footprint. -/
def outZeroTiv : ExposureOut := exposureOutOf requiredCols rowsZeroTiv fpAll

/-- The exposure summary computed on `rowsMixed` with the
all-containing footprint. -/
def outMixed : ExposureOut := exposureOutOf requiredCols rowsMixed fpAll

/-- A seismic fetch result with no union feature (the feed produced no
buffered geometry). -/
def eqNoUnionRes : EqResult := ⟨"USGS M4.5+ Earthquakes (day)", 0, none, []⟩

/-- An alerts footprint with one triangular polygon. -/
def alFp : AlertFootprint :=
  ⟨[.poly [[(0, 0), (1, 0), (0, 1)]]], 1, ["Flood Warning"], ["Severe"]⟩

/-- An alerts fetch result carrying `alFp` as its union feature. -/
def alWithUnion : AlertsResult := ⟨1, some alFp⟩

/-- An exposure summary for the orchestrator examples. -/
def expEmpty : ExposureOut := ⟨0, 0, 0, 0, 0, none, []⟩

/-- Cycle environment in which the primary agent and all three data
sources raise. -/
def envAllFail : CycleEnv :=
  { primary := .error (), eqFetch := .error (), expEq := .error ()
    alertsFetch := .error (), expAlerts := .error ()
    newsFetch := .error (), region := none, now := "T" }

/-- Cycle environment in which the primary agent raises, the seismic
fetch succeeds with no union feature, and the alerts stage succeeds
end-to-end. -/
def envAlertsOk : CycleEnv :=
  { primary := .error (), eqFetch := .ok eqNoUnionRes, expEq := .error ()
    alertsFetch := .ok alWithUnion, expAlerts := .ok expEmpty
    newsFetch := .error (), region := some "FL", now := "T" }

/-- Cycle environment in which the primary agent raises, the seismic
fetch succeeds with no union feature, and everything later fails. -/
def envSeismicAbsent : CycleEnv :=
  { primary := .error (), eqFetch := .ok eqNoUnionRes, expEq := .error ()
    alertsFetch := .error (), expAlerts := .error ()
    newsFetch := .error (), region := none, now := "T" }

/-- A seismic point feature with two coordinates and no magnitude in
its properties. -/
def eqFeatNoMag : EqFeature := ⟨some (.point [10, 20]), .missing⟩

/-- An alert feature whose geometry is a `Polygon` with an empty
coordinates array: Python-truthy, parsed by `shape()` without an
exception, but denoting the empty point set. -/
def alertFeatEmptyPoly : AlertFeature := ⟨some (.polygon []), ⟨none, none⟩⟩

/-- C8: the seismic buffer radius is the step function 200 km for
m ≥ 7, 125 km for 6 ≤ m < 7, 75 km for 5 ≤ m < 6, 50 km for
4 ≤ m < 5 and 25 km otherwise, and it is monotonically non-decreasing
in the magnitude. -/
theorem buffer_radius_step_and_monotone :
    (∀ m : ℚ,
      (7 ≤ m → bufferKmForMag m = 200) ∧
      (6 ≤ m ∧ m < 7 → bufferKmForMag m = 125) ∧
      (5 ≤ m ∧ m < 6 → bufferKmForMag m = 75) ∧
      (4 ≤ m ∧ m < 5 → bufferKmForMag m = 50) ∧
      (m < 4 → bufferKmForMag m = 25)) ∧
    (∀ m₁ m₂ : ℚ, m₁ ≤ m₂ → bufferKmForMag m₁ ≤ bufferKmForMag m₂) := by
  constructor
  · intro m
    refine ⟨fun h => ?_, fun h => ?_, fun h => ?_, fun h => ?_,
      fun h => ?_⟩ <;> unfold bufferKmForMag
    · rw [if_pos h]
    · rw [if_neg (by linarith [h.2]), if_pos h.1]
    · rw [if_neg (by linarith [h.2]), if_neg (by linarith [h.2]),
        if_pos h.1]
    · rw [if_neg (by linarith [h.2]), if_neg (by linarith [h.2]),
        if_neg (by linarith [h.2]), if_pos h.1]
    · rw [if_neg (by linarith), if_neg (by linarith),
        if_neg (by linarith), if_neg (by linarith)]
  · intro m₁ m₂ h
    unfold bufferKmForMag
    split_ifs <;> linarith

/-- Witness for C8 at concrete magnitudes in each band. -/
theorem buffer_radius_step_and_monotone_witness :
    bufferKmForMag 8 = 200 ∧ bufferKmForMag (13/2) = 125 ∧
    bufferKmForMag (11/2) = 75 ∧ bufferKmForMag (9/2) = 50 ∧
    bufferKmForMag 3 = 25 ∧ bufferKmForMag 3 ≤ bufferKmForMag 8 :=
  ⟨(buffer_radius_step_and_monotone.1 8).1 (by norm_num),
   (buffer_radius_step_and_monotone.1 (13/2)).2.1 (by norm_num),
   (buffer_radius_step_and_monotone.1 (11/2)).2.2.1 (by norm_num),
   (buffer_radius_step_and_monotone.1 (9/2)).2.2.2.1 (by norm_num),
   (buffer_radius_step_and_monotone.1 3).2.2.2.2 (by norm_num),
   buffer_radius_step_and_monotone.2 3 8 (by norm_num)⟩

/-- C6: the briefing rendering is a pure function of the structured
input and the pinned generation timestamp — two invocations with
identical structured input and timestamp produce byte-identical
Markdown text. -/
theorem briefing_render_deterministic :
    ∀ (i₁ i₂ : BriefingInput) (ts₁ ts₂ : String),
      i₁ = i₂ → ts₁ = ts₂ →
      renderBriefing i₁ ts₁ = renderBriefing i₂ ts₂ := by
  intro i₁ i₂ ts₁ ts₂ h₁ h₂
  rw [h₁, h₂]

/-- Witness for C6 at a concrete structured input and timestamp. -/
theorem briefing_render_deterministic_witness :
    renderBriefing (.newsB ⟨[]⟩) "2024-01-01T00:00:00+00:00" =
      renderBriefing (.newsB ⟨[]⟩) "2024-01-01T00:00:00+00:00" :=
  briefing_render_deterministic _ _ _ _ rfl rfl

/-- C1: every cycle produces exactly one terminal outcome — no
exception of the primary state or of the first two fallback states
escapes (`runCycle` is a total function into `CycleOutcome`) — and
when the primary strategy and all three data-source fetches raise, the
terminal status is `ok_news`. -/
theorem cycle_terminal_guarantee :
    ∀ env : CycleEnv,
      (∃! o : CycleOutcome, runCycle env = o) ∧
      (env.primary = .error () → env.eqFetch = .error () →
       env.alertsFetch = .error () → env.newsFetch = .error () →
       (runCycle env).status = .ok_news) := by
  intro env
  refine ⟨⟨runCycle env, rfl, fun y hy => hy.symm⟩, ?_⟩
  intro h₁ h₂ h₃ h₄
  simp [runCycle, seismicStage, alertsStage, newsStage, h₁, h₂, h₃, h₄]

/-- Witness for C1 on the environment where everything raises. -/
theorem cycle_terminal_guarantee_witness :
    (∃! o : CycleOutcome, runCycle envAllFail = o) ∧
    (runCycle envAllFail).status = .ok_news :=
  ⟨(cycle_terminal_guarantee envAllFail).1,
   (cycle_terminal_guarantee envAllFail).2 rfl rfl rfl rfl⟩

/-- C2 counterexample: with the primary strategy failing, the seismic
strategy yielding an absent footprint, and the alerts stage
succeeding, `FALLBACK_NEWS` is never attempted, so the four states are
not "attempted exactly once each". -/
theorem fallback_news_not_attempted_cex :
    envAlertsOk.primary = .error () ∧
    envAlertsOk.eqFetch = .ok eqNoUnionRes ∧
    eqNoUnionRes.featureUnion = none ∧
    (runCycle envAlertsOk).attempted =
      [.PRIMARY, .FALLBACK_SEISMIC, .FALLBACK_ALERTS] ∧
    (runCycle envAlertsOk).attempted.count AgentState.FALLBACK_NEWS = 0 :=
  ⟨rfl, rfl, rfl, rfl, rfl⟩

/-- C2 (amended): given the primary strategy fails and the seismic
fetch yields an absent footprint, the terminal status is `ok_alerts`
or `ok_news` and never `ok_eq`, and the attempted states are
`PRIMARY, FALLBACK_SEISMIC, FALLBACK_ALERTS` in this order, followed
by `FALLBACK_NEWS` exactly when the alerts stage does not produce the
briefing: each state is attempted at most once, in the fixed order. -/
theorem fallback_order_after_absent_seismic :
    ∀ (env : CycleEnv) (eq : EqResult),
      env.primary = .error () → env.eqFetch = .ok eq →
      eq.featureUnion = none →
      ((runCycle env).status = .ok_alerts ∨
        (runCycle env).status = .ok_news) ∧
      (runCycle env).status ≠ .ok_eq ∧
      ((runCycle env).attempted =
          [.PRIMARY, .FALLBACK_SEISMIC, .FALLBACK_ALERTS] ∧
        (runCycle env).status = .ok_alerts ∨
       (runCycle env).attempted =
          [.PRIMARY, .FALLBACK_SEISMIC, .FALLBACK_ALERTS,
           .FALLBACK_NEWS] ∧
        (runCycle env).status = .ok_news) := by
  intro env eq h₁ h₂ h₃
  cases ha : env.alertsFetch with
  | error e =>
      simp [runCycle, seismicStage, alertsStage, newsStage,
        h₁, h₂, h₃, ha]
  | ok al =>
      cases hu : al.featureUnion with
      | none =>
          simp [runCycle, seismicStage, alertsStage, newsStage,
            h₁, h₂, h₃, ha, hu]
      | some fp =>
          cases he : env.expAlerts with
          | error e =>
              simp [runCycle, seismicStage, alertsStage, newsStage,
                h₁, h₂, h₃, ha, hu, he]
          | ok exp =>
              simp [runCycle, seismicStage, alertsStage, newsStage,
                h₁, h₂, h₃, ha, hu, he]

/-- Witness for C2 on the environment where the alerts and news stages
also fail. -/
theorem fallback_order_after_absent_seismic_witness :
    ((runCycle envSeismicAbsent).status = .ok_alerts ∨
      (runCycle envSeismicAbsent).status = .ok_news) ∧
    (runCycle envSeismicAbsent).status ≠ .ok_eq ∧
    ((runCycle envSeismicAbsent).attempted =
        [.PRIMARY, .FALLBACK_SEISMIC, .FALLBACK_ALERTS] ∧
      (runCycle envSeismicAbsent).status = .ok_alerts ∨
     (runCycle envSeismicAbsent).attempted =
        [.PRIMARY, .FALLBACK_SEISMIC, .FALLBACK_ALERTS,
         .FALLBACK_NEWS] ∧
      (runCycle envSeismicAbsent).status = .ok_news) :=
  fallback_order_after_absent_seismic envSeismicAbsent eqNoUnionRes
    rfl rfl rfl

/-- C3 counterexample: invoked with a syntactically complete frame and
an absent footprint, the exposure computation fails with the builtin
`TypeError` that subscripting `None` raises, not with the spec's
`ConfigurationError` (no such class exists in the code); likewise the
missing-column failure is a builtin `ValueError`, not a `DataError`. -/
theorem exposure_error_types_cex :
    computePortfolioExposure (.frame requiredCols []) none =
      .error .typeError ∧
    (Except.error PyErr.typeError : Except PyErr ExposureOut) ≠
      .error .configurationError ∧
    (Except.error PyErr.valueError : Except PyErr ExposureOut) ≠
      .error .dataError := by
  refine ⟨rfl, fun h => ?_, fun h => ?_⟩ <;>
    exact absurd (Except.error.inj h) (by decide)

/-- C3 (amended): an unparseable portfolio source raises the parse
error of `pd.read_csv`; a frame missing any required column raises the
builtin `ValueError` of lines 49-52; a complete frame invoked with an
absent footprint raises the builtin `TypeError` of subscripting `None`
at line 67.  The code defines no `DataError` or `ConfigurationError`
types. -/
theorem exposure_error_types :
    ∀ (fp : Option Footprint) (cols : List String) (rows : List CsvRow),
      computePortfolioExposure .parseFailure fp = .error .parserError ∧
      ((requiredCols.all fun c => cols.contains c) = false →
        computePortfolioExposure (.frame cols rows) fp =
          .error .valueError) ∧
      ((requiredCols.all fun c => cols.contains c) = true →
        computePortfolioExposure (.frame cols rows) none =
          .error .typeError) := by
  intro fp cols rows
  refine ⟨rfl, fun h => ?_, fun h => ?_⟩ <;>
    (simp only [computePortfolioExposure]; rw [h]; simp)

/-- Witness for C3 on concrete sources: a frame missing three of the
four required columns, and a complete frame with an absent
footprint. -/
theorem exposure_error_types_witness :
    computePortfolioExposure .parseFailure none = .error .parserError ∧
    computePortfolioExposure (.frame ["PropertyID"] []) none =
      .error .valueError ∧
    computePortfolioExposure (.frame requiredCols []) none =
      .error .typeError :=
  ⟨(exposure_error_types none ["PropertyID"] []).1,
   (exposure_error_types none ["PropertyID"] []).2.1 (by decide),
   (exposure_error_types none requiredCols []).2.2 (by decide)⟩

/-- C9 counterexample: a feature whose geometry is a `Polygon` with an
empty coordinates array is truthy and parses, so the aggregation
returns a present footprint whose union geometry is empty — the
footprint is neither absent nor a non-empty geometry. -/
theorem hazard_union_empty_geometry_cex :
    unionFeatures [alertFeatEmptyPoly] =
      some ⟨[.poly []], 1, [], []⟩ ∧
    unionIsEmpty [GeomPiece.poly []] = true := ⟨rfl, rfl⟩

/-- C9 (amended): aggregation is total (it returns an optional
footprint, raising nothing); an empty feature list yields `absent`;
the footprint is `absent` exactly when no feature's geometry parses —
in particular when every geometry is missing or unparseable; and on
the seismic path a present union feature always carries a non-empty
geometry.  On the alerts path, however, a present footprint may carry
an empty union geometry when a parseable geometry denotes the empty
point set, as `hazard_union_empty_geometry_cex` shows. -/
theorem hazard_union_absent_or_built :
    (unionFeatures [] = none) ∧
    (∀ feats : List AlertFeature,
      (unionFeatures feats = none ↔ alertParsedGeoms feats = [])) ∧
    (∀ feats : List AlertFeature,
      (∀ f ∈ feats,
        f.geometry = none ∨ f.geometry = some .unrecognized) →
      unionFeatures feats = none) ∧
    (∀ (feats : List EqFeature) (u : EqUnionFeature),
      eqFeatureUnion feats = some u →
      u.geometry ≠ [] ∧ unionIsEmpty u.geometry = false) := by
  have hparsed : ∀ feats : List AlertFeature,
      (∀ f ∈ feats,
        f.geometry = none ∨ f.geometry = some .unrecognized) →
      alertParsedGeoms feats = [] := by
    intro feats h
    rw [alertParsedGeoms, List.filterMap_eq_nil_iff]
    intro f hf
    rcases h f hf with hg | hg <;> simp [hg, shapeParse]
  refine ⟨rfl, fun feats => ?_, fun feats h => ?_, fun feats u hu => ?_⟩
  · unfold unionFeatures
    cases hp : alertParsedGeoms feats <;> simp [hp]
  · unfold unionFeatures
    simp [hparsed feats h]
  · have hpos : ∀ m : ℚ, 0 < bufferKmForMag m / 111 := by
      intro m
      have h25 : (25 : ℚ) ≤ bufferKmForMag m := by
        unfold bufferKmForMag
        split_ifs <;> linarith
      positivity
    have hbuf : ∀ p ∈ eqBuffers feats, p.isEmptyGeom = false := by
      intro p hp
      rw [eqBuffers, List.mem_filterMap] at hp
      obtain ⟨f, _, hpf⟩ := hp
      unfold bufferOfFeature at hpf
      rcases hg : f.geometry with _ | g
      · rw [hg] at hpf; simp at hpf
      · rcases g with coords | rings | _ <;> rw [hg] at hpf
        · by_cases hlen : coords.length < 2
          · simp [hlen] at hpf
          · simp [hlen] at hpf
            subst hpf
            have := hpos (magValue f.mag)
            simp only [GeomPiece.isEmptyGeom, decide_eq_false_iff_not]
            linarith
        · simp at hpf
        · simp at hpf
    unfold eqFeatureUnion at hu
    by_cases hb : (eqBuffers feats).isEmpty
    · rw [if_pos hb] at hu; exact absurd hu (by simp)
    · rw [if_neg hb] at hu
      obtain rfl := Option.some.inj hu
      have hne2 : eqBuffers feats ≠ [] := by
        simpa [List.isEmpty_iff] using hb
      constructor
      · exact hne2
      · obtain ⟨p, hp⟩ := List.exists_mem_of_ne_nil _ hne2
        show unionIsEmpty (eqBuffers feats) = false
        rw [unionIsEmpty, Bool.eq_false_iff]
        intro hall
        rw [List.all_eq_true] at hall
        have h1 := hall p hp
        rw [hbuf p hp] at h1
        exact Bool.false_ne_true h1

/-- Witness for C9: a list whose only feature has a falsy geometry
yields an absent footprint, and a concrete seismic union feature has a
non-empty geometry. -/
theorem hazard_union_absent_or_built_witness :
    unionFeatures [⟨none, ⟨none, none⟩⟩] = none ∧
    (unionFeatures [alertFeatEmptyPoly] = none ↔
      alertParsedGeoms [alertFeatEmptyPoly] = []) ∧
    ((eqFeatureUnion [eqFeatNoMag]).map
        (fun u => decide (u.geometry ≠ []) && !unionIsEmpty u.geometry)) =
      some true := by
  refine ⟨?_, hazard_union_absent_or_built.2.1 _, ?_⟩
  · exact hazard_union_absent_or_built.2.2.1 _ (by intro f hf; simp at hf; left; rw [hf])
  · have h := hazard_union_absent_or_built.2.2.2 [eqFeatNoMag]
      ⟨[.disc 10 20 (25 / 111)], 1⟩ (by rfl)
    simp only [Option.map]
    rw [show eqFeatureUnion [eqFeatNoMag] =
          some ⟨[.disc 10 20 (25 / 111)], 1⟩ from rfl]
    simp [h.2, h.1]

/-- C10: a seismic `Point` feature with at least two coordinates whose
magnitude is missing or fails numeric coercion is not skipped: it is
buffered as magnitude 0, contributing a disc of 25 km (25/111 degrees)
around its epicenter, and that disc is part of the hazard union of any
fetch whose feature list contains the feature. -/
theorem missing_magnitude_buffered :
    ∀ (f : EqFeature) (coords : List ℚ),
      f.geometry = some (.point coords) → 2 ≤ coords.length →
      (f.mag = .missing ∨ f.mag = .badValue) →
      bufferOfFeature f =
        some (.disc (coords.getD 0 0) (coords.getD 1 0) (25 / 111)) ∧
      ∀ feats : List EqFeature, f ∈ feats →
        ∃ u : EqUnionFeature, eqFeatureUnion feats = some u ∧
          GeomPiece.disc (coords.getD 0 0) (coords.getD 1 0) (25 / 111) ∈
            u.geometry := by
  intro f coords hg hlen hmag
  have hmagv : magValue f.mag = 0 := by
    rcases hmag with h | h <;> rw [h] <;> rfl
  have hbuf : bufferOfFeature f =
      some (.disc (coords.getD 0 0) (coords.getD 1 0) (25 / 111)) := by
    have hlen2 : ¬ (coords.length < 2) := by omega
    have h25 : bufferKmForMag 0 = 25 := by norm_num [bufferKmForMag]
    simp [bufferOfFeature, hg, hlen2, hmagv, h25]
  refine ⟨hbuf, fun feats hf => ?_⟩
  have hmem : GeomPiece.disc (coords.getD 0 0) (coords.getD 1 0)
      (25 / 111) ∈ eqBuffers feats := by
    rw [eqBuffers, List.mem_filterMap]
    exact ⟨f, hf, hbuf⟩
  have hne : ¬ (eqBuffers feats).isEmpty := by
    rw [List.isEmpty_iff]
    intro h
    rw [h] at hmem
    exact absurd hmem (List.not_mem_nil _)
  refine ⟨⟨eqBuffers feats, (eqBuffers feats).length⟩, ?_, hmem⟩
  unfold eqFeatureUnion
  rw [if_neg hne]

/-- Witness for C10 on a concrete point feature with no magnitude. -/
theorem missing_magnitude_buffered_witness :
    bufferOfFeature eqFeatNoMag = some (.disc 10 20 (25 / 111)) ∧
    ∃ u : EqUnionFeature, eqFeatureUnion [eqFeatNoMag] = some u ∧
      GeomPiece.disc 10 20 (25 / 111) ∈ u.geometry :=
  ⟨(missing_magnitude_buffered eqFeatNoMag [10, 20] rfl (by norm_num)
      (Or.inl rfl)).1,
   (missing_magnitude_buffered eqFeatNoMag [10, 20] rfl (by norm_num)
      (Or.inl rfl)).2 [eqFeatNoMag] (List.mem_singleton_self _)⟩

/-- Inversion of the exposure computation on its success path: the
returned summary's fields, expressed through the frame pipeline. -/
theorem computeExposure_ok_fields {cols : List String} {rows : List CsvRow}
    {fp : Footprint} {out : ExposureOut}
    (h : computePortfolioExposure (.frame cols rows) (some fp) = .ok out) :
    out.assetCountTotal = (keptRows rows).length ∧
    out.assetCountExposed = (exposedIndexed rows fp).length ∧
    out.tivTotal = ((keptRows rows).map KeptRow.tiv).sum ∧
    out.tivExposed = ((exposedIndexed rows fp).map fun p => p.2.tiv).sum ∧
    out.exposureRate =
      (if 0 < ((keptRows rows).map KeptRow.tiv).sum
        then ((exposedIndexed rows fp).map fun p => p.2.tiv).sum /
          ((keptRows rows).map KeptRow.tiv).sum
        else 0) ∧
    out.topExposed = topRecords rows fp := by
  simp only [computePortfolioExposure] at h
  split at h
  next hc => simp at h
  next hc =>
    rw [Except.ok.injEq] at h
    rw [← h]
    exact ⟨rfl, rfl, rfl, rfl, rfl, rfl⟩

/-- Evaluation of the exposure computation on its success path: with
all required columns present and a present footprint, the result is
the summary record of the frame pipeline. -/
theorem computeExposure_frame_some (cols : List String)
    (rows : List CsvRow) (fp : Footprint)
    (hc : (requiredCols.all fun c => cols.contains c) = true) :
    computePortfolioExposure (.frame cols rows) (some fp) =
      .ok { assetCountTotal := (keptRows rows).length
            assetCountExposed := (exposedIndexed rows fp).length
            tivTotal := ((keptRows rows).map KeptRow.tiv).sum
            tivExposed :=
              ((exposedIndexed rows fp).map fun p => p.2.tiv).sum
            exposureRate :=
              if 0 < ((keptRows rows).map KeptRow.tiv).sum
                then ((exposedIndexed rows fp).map fun p => p.2.tiv).sum /
                  ((keptRows rows).map KeptRow.tiv).sum
                else 0
            bounds :=
              if (exposedIndexed rows fp).isEmpty then none
              else computeBounds
                ((exposedIndexed rows fp).map fun p => p.2.lat)
                ((exposedIndexed rows fp).map fun p => p.2.lon)
            topExposed := topRecords rows fp } := by
  simp only [computePortfolioExposure]
  rw [hc]
  rfl

/-- A row of the kept frame is a coerced row of the input, so its
insured value is the `fillna(0.0)` coercion of the input cell. -/
theorem keptRows_tiv_nonneg {rows : List CsvRow}
    (hnn : ∀ r ∈ rows, 0 ≤ r.tiv.getD 0) :
    ∀ q ∈ (keptRows rows).map KeptRow.tiv, 0 ≤ q := by
  intro q hq
  rw [List.mem_map] at hq
  obtain ⟨x, hx, rfl⟩ := hq
  rw [keptRows, List.mem_filterMap] at hx
  obtain ⟨r, hr, hcr⟩ := hx
  have h0 := hnn r hr
  rcases hla : r.lat with _ | la
  · simp [coerceRow, hla] at hcr
  · rcases hlo : r.lon with _ | lo
    · simp [coerceRow, hla, hlo] at hcr
    · simp [coerceRow, hla, hlo] at hcr
      rw [← hcr]
      exact h0

/-- The exposed insured values form a sublist of the kept insured
values (boolean filtering preserves order). -/
theorem exposed_tiv_sublist (rows : List CsvRow) (fp : Footprint) :
    ((exposedIndexed rows fp).map fun p => p.2.tiv).Sublist
      ((keptRows rows).map KeptRow.tiv) := by
  have h1 : (exposedIndexed rows fp).Sublist (keptRows rows).enum :=
    List.filter_sublist _
  have h2 := h1.map (fun p : ℕ × KeptRow => p.2.tiv)
  have h3 : ((keptRows rows).enum.map fun p : ℕ × KeptRow => p.2.tiv) =
      (keptRows rows).map KeptRow.tiv := by
    rw [show (fun p : ℕ × KeptRow => p.2.tiv) =
          KeptRow.tiv ∘ Prod.snd from rfl]
    rw [← List.map_map, List.enum_map_snd]
  rwa [h3] at h2

/-- C4 (amended): for every portfolio whose coerced insured values are
all non-negative, the summary satisfies exposed value ≤ total value
and 0 ≤ ratio ≤ 1, and the ratio is exactly 0 when the total insured
value is 0.  (Without the non-negativity hypothesis the claim fails,
see the counterexample: `pd.to_numeric` accepts negative insured
values and nothing clamps them.) -/
theorem exposure_summary_bounds :
    ∀ (cols : List String) (rows : List CsvRow) (fp : Footprint)
      (out : ExposureOut),
      computePortfolioExposure (.frame cols rows) (some fp) = .ok out →
      (∀ r ∈ rows, 0 ≤ r.tiv.getD 0) →
      out.tivExposed ≤ out.tivTotal ∧ 0 ≤ out.exposureRate ∧
      out.exposureRate ≤ 1 ∧
      (out.tivTotal = 0 → out.exposureRate = 0) := by
  intro cols rows fp out h hnn
  obtain ⟨-, -, hT, hE, hR, -⟩ := computeExposure_ok_fields h
  have hknn := keptRows_tiv_nonneg hnn
  have hsub := exposed_tiv_sublist rows fp
  have hAB : out.tivExposed ≤ out.tivTotal := by
    rw [hT, hE]
    exact hsub.sum_le_sum hknn
  have hA : 0 ≤ out.tivExposed := by
    rw [hE]
    exact List.sum_nonneg fun q hq => hknn q (hsub.subset hq)
  have hB : 0 ≤ out.tivTotal := by
    rw [hT]
    exact List.sum_nonneg hknn
  refine ⟨hAB, ?_, ?_, ?_⟩
  · rw [hR]
    split_ifs with hpos
    · rw [hE] at hA
      exact div_nonneg hA (le_of_lt hpos)
    · exact le_refl 0
  · rw [hR]
    split_ifs with hpos
    · rw [hT, hE] at hAB
      exact (div_le_one hpos).mpr hAB
    · exact zero_le_one
  · intro h0
    rw [hT] at h0
    rw [hR, if_neg]
    rw [h0]
    exact lt_irrefl 0

/-- Witness for C4 on a concrete one-row portfolio whose insured value
cell is non-numeric (total insured value 0, ratio 0). -/
theorem exposure_summary_bounds_witness :
    outZeroTiv.tivExposed ≤ outZeroTiv.tivTotal ∧
    0 ≤ outZeroTiv.exposureRate ∧ outZeroTiv.exposureRate ≤ 1 ∧
    (outZeroTiv.tivTotal = 0 → outZeroTiv.exposureRate = 0) :=
  exposure_summary_bounds requiredCols rowsZeroTiv fpAll outZeroTiv
    (by rfl) (by decide)

/-- C4 counterexample: with a negative insured value on an unexposed
row, the exposed value 100 exceeds the total value 50 and the exposure
ratio is 2, outside [0, 1]. -/
theorem exposure_ratio_above_one_cex :
    (computePortfolioExposure (.frame requiredCols rowsNegTiv)
        (some fpLonZero)).map
      (fun o => (o.tivTotal, o.tivExposed, o.exposureRate)) =
      .ok (50, 100, 2) ∧
    ¬ ((100 : ℚ) ≤ 50) ∧ ¬ ((2 : ℚ) ≤ 1) := by
  refine ⟨?_, by norm_num, by norm_num⟩
  rw [computeExposure_frame_some requiredCols rowsNegTiv fpLonZero rfl]
  have hkept : keptRows rowsNegTiv =
      [⟨"A", 0, 0, 100⟩, ⟨"B", 10, 10, -50⟩] := rfl
  have hexp : exposedIndexed rowsNegTiv fpLonZero =
      [(0, ⟨"A", 0, 0, 100⟩)] := rfl
  simp only [Except.map, hkept, hexp, List.map_cons, List.map_nil,
    List.sum_cons, List.sum_nil, Except.ok.injEq, Prod.mk.injEq]
  norm_num

/-- A row is dropped by the coercion step exactly when one of its
coordinates failed numeric coercion. -/
theorem coerceRow_none_iff (r : CsvRow) :
    coerceRow r = none ↔ (r.lat.isSome && r.lon.isSome) = false := by
  rcases hla : r.lat with _ | la <;> rcases hlo : r.lon with _ | lo <;>
    simp [coerceRow, hla, hlo]

/-- Pre-filtering the rows to the coercible ones does not change the
kept frame: the pipeline drops exactly those rows anyway. -/
theorem keptRows_filter_coercible (rows : List CsvRow) :
    keptRows (rows.filter fun r => r.lat.isSome && r.lon.isSome) =
      keptRows rows := by
  induction rows with
  | nil => rfl
  | cons r rs ih =>
      simp only [keptRows] at ih ⊢
      rcases hla : r.lat with _ | la <;> rcases hlo : r.lon with _ | lo <;>
        simp [coerceRow, List.filter_cons, List.filterMap_cons, hla,
          hlo, ih]

/-- The kept-frame size counts exactly the rows whose coordinates both
coerce. -/
theorem length_keptRows (rows : List CsvRow) :
    (keptRows rows).length =
      rows.countP (fun r => r.lat.isSome && r.lon.isSome) := by
  induction rows with
  | nil => rfl
  | cons r rs ih =>
      simp only [keptRows] at ih ⊢
      rcases hla : r.lat with _ | la <;> rcases hlo : r.lon with _ | lo <;>
        simp [coerceRow, List.filterMap_cons, List.countP_cons, hla,
          hlo, ih]

/-- C7 (amended): rows whose coordinates fail numeric coercion are
dropped before scoring and never counted — pre-filtering them away
changes nothing, the total asset count is exactly the number of
coercible rows and bounds the exposed count.  The claim's range part
is false: the code never validates that coordinates lie in
[-90, 90] × [-180, 180], so a numeric out-of-range row participates
and can be scored as exposed (see the counterexample). -/
theorem dropped_rows_never_scored :
    ∀ (cols : List String) (rows : List CsvRow) (fp : Option Footprint),
      computePortfolioExposure (.frame cols rows) fp =
        computePortfolioExposure
          (.frame cols (rows.filter fun r => r.lat.isSome && r.lon.isSome))
          fp ∧
      (∀ out : ExposureOut,
        computePortfolioExposure (.frame cols rows) fp = .ok out →
        out.assetCountTotal =
          rows.countP (fun r => r.lat.isSome && r.lon.isSome) ∧
        out.assetCountExposed ≤
          rows.countP (fun r => r.lat.isSome && r.lon.isSome)) := by
  intro cols rows fp
  have hk := keptRows_filter_coercible rows
  constructor
  · simp only [computePortfolioExposure, exposedIndexed, topRecords, hk]
  · intro out hout
    cases fp with
    | none =>
        exfalso
        simp only [computePortfolioExposure] at hout
        split at hout <;> simp at hout
    | some f =>
        obtain ⟨hCT, hCE, -, -, -, -⟩ := computeExposure_ok_fields hout
        constructor
        · rw [hCT, length_keptRows]
        · rw [hCE, ← length_keptRows rows]
          calc (exposedIndexed rows f).length
              ≤ (keptRows rows).enum.length := by
                rw [exposedIndexed]
                exact List.length_filter_le _ _
            _ = (keptRows rows).length := List.enum_length

/-- C7 counterexample: a row with numeric latitude 200 (outside
[-90, 90]) survives coercion, participates in scoring and is counted
as exposed — the code performs no coordinate-range validation. -/
theorem coordinate_range_cex :
    keptRows rowsBadLat = [⟨"X", 200, 0, 10⟩] ∧
    (computePortfolioExposure (.frame requiredCols rowsBadLat)
        (some fpAll)).map
      (fun o => o.assetCountExposed) = .ok 1 ∧
    ¬ ((200 : ℚ) ≤ 90) := by
  refine ⟨rfl, rfl, by norm_num⟩

/-- Witness for C7 on a concrete mixed frame: one coercible row, one
row whose latitude fails numeric coercion. -/
theorem dropped_rows_never_scored_witness :
    computePortfolioExposure (.frame requiredCols rowsMixed)
        (some fpAll) =
      computePortfolioExposure
        (.frame requiredCols
          (rowsMixed.filter fun r => r.lat.isSome && r.lon.isSome))
        (some fpAll) ∧
    outMixed.assetCountTotal =
      rowsMixed.countP (fun r => r.lat.isSome && r.lon.isSome) ∧
    outMixed.assetCountExposed ≤
      rowsMixed.countP (fun r => r.lat.isSome && r.lon.isSome) :=
  ⟨(dropped_rows_never_scored requiredCols rowsMixed (some fpAll)).1,
   (dropped_rows_never_scored requiredCols rowsMixed (some fpAll)).2
     outMixed (by rfl)⟩
